import Mathlib

/-!
# kubegraph command: `cmd/kubegraph/main.go`

A shallow embedding of the command wiring of kubegraph: the `Options` record, the
three phases `Complete`, `Validate`, `Run` that the command's `RunE` chains, the
flag binding done by `NewCmd`, and `main`.

Methods with a pointer receiver (`func (o *Options) ...`) are state passing: they
take the `Options` value and return a `Step` holding the `Options` afterwards, the
returned Go `error` (`none` is `nil`) and the effects performed, in order.

What the command consumes from outside this file is a parameter, collected in
`World`: the flag set lookups, the kubeconfig loader, the dynamic client
constructor, the build-time version strings of package `internal`, and
`Builder.Build` of package `graph`.
-/

namespace KubeGraph

/-! ## Data model -/

/-- A Go `error` value; `Option GoError` is a Go `error` with `none` for `nil`. -/
structure GoError where
  msg : String
  deriving DecidableEq, Repr

/-- The error built by `fmt.Errorf` from a format string without verbs. -/
def Errorf (format : String) : GoError := ⟨format⟩

/-- A run-time panic of the Go program. -/
inductive GoPanic where
  | indexOutOfRange (index : Nat) (length : Nat)
  deriving DecidableEq, Repr

/-- An `io.Reader`: the process standard input or some other reader. -/
inductive Reader where
  | osStdin
  | other (id : Nat)
  deriving DecidableEq, Repr

/-- An `io.Writer`: one of the two process output files or some other writer. -/
inductive Writer where
  | osStdout
  | osStderr
  | other (id : Nat)
  deriving DecidableEq, Repr

/-- The record `genericclioptions.IOStreams`. -/
structure IOStreams where
  In : Reader
  Out : Writer
  ErrOut : Writer
  deriving DecidableEq, Repr

/-- The handle `*genericclioptions.ConfigFlags`, as made by `NewConfigFlags`. -/
structure ConfigFlags where
  usePersistentConfig : Bool
  deriving DecidableEq, Repr

/-- The call `genericclioptions.NewConfigFlags(usePersistentConfig)`. -/
def NewConfigFlags (usePersistentConfig : Bool) : ConfigFlags := ⟨usePersistentConfig⟩

/-- A `*rest.Config` produced by `ConfigFlags.ToRESTConfig`. -/
structure RestConfig where
  id : Nat
  deriving DecidableEq, Repr

/-- A non-nil `dynamic.Interface` client. -/
structure Client where
  id : Nat
  deriving DecidableEq, Repr

/-- The struct `Options` (main.go lines 24-33), field for field; the embedded
`IOStreams` is the field `IOStreams`, and a nil `Client` is `none`. -/
structure Options where
  ConfigFlags : KubeGraph.ConfigFlags
  IOStreams : KubeGraph.IOStreams
  Client : Option KubeGraph.Client
  Namespace : String
  Name : String
  Kind : String
  DotGraph : Bool
  PrintVersion : Bool
  deriving DecidableEq, Repr

/-- The promoted field `o.Out` of the embedded `IOStreams`. -/
def Options.Out (o : Options) : Writer := o.IOStreams.Out

/-- A Go value as passed in a call, tagged with its static type. -/
inductive GoValue where
  | client (c : Option Client)
  | writer (w : Writer)
  | bool (b : Bool)
  | string (s : String)
  | int (n : Int)
  deriving DecidableEq, Repr

/-- Whether the value has an integer type. -/
def GoValue.isInt : GoValue → Bool
  | .int _ => true
  | _ => false

/-- A builder of package `graph`, represented by the six values it is constructed
from; package `graph` is not part of the sources, the fields are the parameters of
the call `graph.NewBuilder(o.Client, o.Out, o.DotGraph, o.Namespace, o.Kind, o.Name)`
in call order. -/
structure Builder where
  Client : Option KubeGraph.Client
  Out : Writer
  DotGraph : Bool
  Namespace : String
  Kind : String
  Name : String
  deriving DecidableEq, Repr

/-- The call `graph.NewBuilder(client, out, dotGraph, namespace, kind, name)`. -/
def NewBuilder (client : Option Client) (out : Writer) (dotGraph : Bool)
    (namespace_ kind name : String) : Builder :=
  ⟨client, out, dotGraph, namespace_, kind, name⟩

/-- The argument list of the `graph.NewBuilder` call that made the builder. -/
def Builder.args (b : Builder) : List GoValue :=
  [.client b.Client, .writer b.Out, .bool b.DotGraph,
   .string b.Namespace, .string b.Kind, .string b.Name]

/-- Modelled from the spec: the mode selector (Tree | DOT) of the renderers, which
live in package `graph`, not part of the sources. -/
inductive Mode where
  | Tree
  | DOT
  deriving DecidableEq, Repr

/-- Modelled from the spec: the renderer selected by the boolean handed to
`graph.NewBuilder`, whose reading is in package `graph`; main.go registers the flag
as "If true, a DOT graph will be printed to stdout". -/
def Builder.mode (b : Builder) : Mode := if b.DotGraph then Mode.DOT else Mode.Tree

/-- What a call of `b.Build()` does: the error it returns and the text it writes to
its sink `b.Out`. -/
structure BuildOutcome where
  err : Option GoError
  written : List String
  deriving DecidableEq, Repr

/-- The build-time strings of package `internal` printed by `--version`. -/
structure VersionInfo where
  Version : String
  Branch : String
  Commit : String
  GoVersion : String
  OSArch : String
  Date : String
  deriving DecidableEq, Repr

/-- Everything the command obtains from outside `main.go`. -/
structure World where
  /-- The result of `cmd.Flags().GetString("namespace")`. -/
  flagNamespace : Except GoError String
  /-- The result of `o.ConfigFlags.ToRawKubeConfigLoader().Namespace()`. -/
  configNamespace : Except GoError String
  /-- The result of `o.ConfigFlags.ToRESTConfig()`. -/
  restConfig : Except GoError RestConfig
  /-- The function `dynamic.NewForConfig`. -/
  newForConfig : RestConfig → Except GoError Client
  /-- The constants of package `internal`. -/
  version : VersionInfo
  /-- The method `Build` of a builder of package `graph`. -/
  build : Builder → BuildOutcome
  /-- The verbosity of klog, the value of its flag `-v`. -/
  verbosity : Nat

/-- An observable action of the command. -/
inductive Effect where
  /-- A call `klog.V(level).Infoln(msg)`. -/
  | klog (level : Nat) (msg : String)
  /-- A call of `fmt.Printf`, which writes `text` to the process standard output. -/
  | printf (text : String)
  /-- A call of `graph.NewBuilder` returning `b`. -/
  | newBuilder (b : Builder)
  /-- A call of `b.Build()`. -/
  | build (b : Builder)
  deriving DecidableEq, Repr

/-- The state after a method of `*Options` returns: the options, the returned
error and the effects performed. -/
structure Step where
  o : Options
  err : Option GoError
  trace : List Effect
  deriving DecidableEq, Repr

/-! ## The command -/

/-- The function `NewOptions`: every field not listed in the literal is zero. -/
def NewOptions (iostreams : IOStreams) : Options :=
  { ConfigFlags := NewConfigFlags true
    IOStreams := iostreams
    Client := none
    Namespace := ""
    Name := ""
    Kind := ""
    DotGraph := false
    PrintVersion := false }

/-- The Go index expression `args[i]`, which panics out of range. -/
def index (args : List String) (i : Nat) : Except GoPanic String :=
  match args.get? i with
  | some s => .ok s
  | none => .error (.indexOutOfRange i args.length)

/-- The method `Options.Complete` (main.go lines 106-146). -/
def Complete (w : World) (o : Options) (args : List String) : Except GoPanic Step := do
  let t := [Effect.klog 1 "add information to Options struct"]
  -- Get Type and Name
  let o ← (if args.length ≥ 2 then do
      let kind ← index args 0
      let o := { o with Kind := kind }
      let name ← index args 1
      pure { o with Name := name }
    else pure o : Except GoPanic Options)
  -- Get namespace
  match w.flagNamespace with
  | .error err => pure ⟨o, some err, t⟩
  | .ok ns =>
    match (if ns = "" then w.configNamespace else .ok ns) with
    | .error err => pure ⟨o, some err, t⟩
    | .ok ns =>
      let o := { o with Namespace := ns }
      -- Get Client
      match w.restConfig with
      | .error err => pure ⟨o, some err, t⟩
      | .ok restConfig =>
        match w.newForConfig restConfig with
        | .error err => pure ⟨o, some err, t⟩
        | .ok dynClient => pure ⟨{ o with Client := some dynClient }, none, t⟩

/-- The method `Options.Validate` (main.go lines 148-157). -/
def Validate (o : Options) (args : List String) : Step :=
  let t := [Effect.klog 1 "validate arguments"]
  if args.length ≠ 2 ∧ !o.PrintVersion then
    ⟨o, some (Errorf "requires valid 'kind' and 'name' arguments"), t⟩
  else
    ⟨o, none, t⟩

/-- The text printed by the `fmt.Printf` call of `Run`: every verb is `%s`. -/
def versionBlock (v : VersionInfo) : String :=
  "Version:\t" ++ v.Version ++ "\nBranch:\t\t" ++ v.Branch ++ "\nCommit:\t\t" ++ v.Commit
    ++ "\nGo Version:\t" ++ v.GoVersion ++ "\nOS/Arch:\t" ++ v.OSArch
    ++ "\nDate:\t\t" ++ v.Date ++ "\n"

/-- The method `Options.Run` (main.go lines 159-176). -/
def Run (w : World) (o : Options) : Step :=
  let t := [Effect.klog 1 "execute the build function of the Builder"]
  if o.PrintVersion then
    ⟨o, none, t ++ [Effect.printf (versionBlock w.version)]⟩
  else
    let b := NewBuilder o.Client o.Out o.DotGraph o.Namespace o.Kind o.Name
    let t := t ++ [Effect.newBuilder b, Effect.build b]
    match (w.build b).err with
    | some err => ⟨o, some err, t⟩
    | none => ⟨o, none, t⟩

/-- The closure `RunE` of the command (main.go lines 83-95), on the options `o`
it captured. -/
def RunE (w : World) (o : Options) (args : List String) : Except GoPanic Step := do
  let s ← Complete w o args
  match s.err with
  | some err => pure ⟨s.o, some err, s.trace⟩
  | none =>
    let s2 := Validate s.o args
    match s2.err with
    | some err => pure ⟨s2.o, some err, s.trace ++ s2.trace⟩
    | none =>
      let s3 := Run w s2.o
      match s3.err with
      | some err => pure ⟨s3.o, some err, s.trace ++ s2.trace ++ s3.trace⟩
      | none => pure ⟨s3.o, none, s.trace ++ s2.trace ++ s3.trace⟩

/-- A command line as the flag set of the command parses it: the value given for
`--dot` and for `--version` (`none` when the flag is not given) and the positional
arguments. -/
structure CommandLine where
  dot : Option Bool
  version : Option Bool
  args : List String
  deriving DecidableEq, Repr

/-- The variable bound by `Flags().BoolVar(p, name, value, usage)` after parsing:
`value` is the default, replaced by what the command line gives. -/
def BoolVar (value : Bool) (given : Option Bool) : Bool := given.getD value

/-- The command returned by `NewCmd`: the options the closure `RunE` captured and
the default values the two boolean flags were registered with (main.go lines
98-99: the defaults are the fields as `NewOptions` left them). -/
structure Command where
  o : Options
  dotValue : Bool
  versionValue : Bool
  deriving DecidableEq, Repr

/-- The function `NewCmd` (main.go lines 65-103). -/
def NewCmd (iostreams : IOStreams) : Command :=
  let o := NewOptions iostreams
  { o := o, dotValue := o.DotGraph, versionValue := o.PrintVersion }

/-- What the flag set of the command makes of the process arguments: it rejects
them with an error, or finds `--help`, or parses them into a command line. -/
inductive Parsed where
  | rejected (err : GoError)
  | help
  | line (cl : CommandLine)
  deriving DecidableEq, Repr

/-- The method `Execute` of the command, of package cobra: process arguments the
flag set rejects give that error without calling `RunE`; `--help` shows the usage
and gives nil without calling `RunE`; otherwise the bound variables `o.DotGraph`
and `o.PrintVersion` receive the flag values and the result of `RunE` on the
positional arguments is returned. -/
def Execute (w : World) (c : Command) (parsed : Parsed) : Except GoPanic Step :=
  match parsed with
  | .rejected err => pure ⟨c.o, some err, []⟩
  | .help => pure ⟨c.o, none, []⟩
  | .line cl =>
    let o := { c.o with DotGraph := BoolVar c.dotValue cl.dot,
                        PrintVersion := BoolVar c.versionValue cl.version }
    RunE w o cl.args

/-- The exit status of the process running `main` (main.go lines 48-54):
`os.Exit(1)` when `Execute` returns an error, 0 when `main` returns, and 2 when
the Go runtime ends the process on a panic. -/
def main (w : World) (parsed : Parsed) : Nat :=
  let c := NewCmd { In := Reader.osStdin, Out := Writer.osStdout, ErrOut := Writer.osStderr }
  match Execute w c parsed with
  | .error _ => 2
  | .ok s =>
    match s.err with
    | some _ => 1
    | none => 0

/-! ## Observations on a trace -/

/-- The builders constructed, in order. -/
def builders (t : List Effect) : List Builder :=
  t.filterMap fun e => match e with
    | Effect.newBuilder b => some b
    | _ => none

/-- The builders whose `Build` was called, in order. -/
def builds (t : List Effect) : List Builder :=
  t.filterMap fun e => match e with
    | Effect.build b => some b
    | _ => none

/-- The texts sent to the process standard output by `fmt.Printf`, in order. -/
def printed (t : List Effect) : List String :=
  t.filterMap fun e => match e with
    | Effect.printf s => some s
    | _ => none

/-- A piece of output on a writer: a text, or a log line of klog (its header, then
the message). -/
inductive Output where
  | text (s : String)
  | logLine (level : Nat) (msg : String)
  deriving DecidableEq, Repr

/-- What an effect writes, and on which writer: klog, set to `logtostderr` by `init`
(main.go line 38), writes a line of level `level` to the process standard error
when the verbosity reaches the level; `fmt.Printf` writes to the process standard
output; `Build` writes its text to the sink of its builder. -/
def Effect.writes (w : World) : Effect → List (Writer × Output)
  | Effect.klog level msg =>
    if level ≤ w.verbosity then [(Writer.osStderr, Output.logLine level msg)] else []
  | Effect.printf text => [(Writer.osStdout, Output.text text)]
  | Effect.newBuilder _ => []
  | Effect.build b => (w.build b).written.map fun s => (b.Out, Output.text s)

/-- Everything written to the writer `sink` during a trace, in order. -/
def writtenTo (w : World) (sink : Writer) (t : List Effect) : List Output :=
  (t.flatMap (Effect.writes w)).filterMap fun p => if p.1 = sink then some p.2 else none

/-! ## Concrete inputs -/

/-- The streams `main` hands to `NewCmd`. -/
def stdStreams : IOStreams :=
  { In := Reader.osStdin, Out := Writer.osStdout, ErrOut := Writer.osStderr }

/-- Some build-time strings. -/
def sampleVersion : VersionInfo :=
  { Version := "v0.1.0", Branch := "main", Commit := "0a1b2c3", GoVersion := "go1.15",
    OSArch := "linux/amd64", Date := "2020-11-01" }

/-- A world where the namespace flag is empty, the kubeconfig names the namespace
`default`, the client can be made, and every `Build` succeeds and writes a line. -/
def sampleWorld : World :=
  { flagNamespace := .ok ""
    configNamespace := .ok "default"
    restConfig := .ok ⟨0⟩
    newForConfig := fun _ => .ok ⟨7⟩
    version := sampleVersion
    build := fun b => ⟨none, [b.Kind ++ "/" ++ b.Name]⟩
    verbosity := 0 }

/-- The world `sampleWorld` except that every `Build` fails. -/
def failingBuildWorld : World :=
  { sampleWorld with build := fun b => ⟨some ⟨"kind " ++ b.Kind ++ " not found"⟩, []⟩ }

/-- The options of `NewOptions stdStreams` with `PrintVersion` set. -/
def versionOptions : Options := { NewOptions stdStreams with PrintVersion := true }

/-- The options of `kubegraph service web` once `Complete` has succeeded in
`sampleWorld`. -/
def webOptions : Options :=
  { NewOptions stdStreams with
      Client := some ⟨7⟩, Namespace := "default", Kind := "service", Name := "web" }

/-- The command line `kubegraph service web`. -/
def webLine : CommandLine := { dot := none, version := none, args := ["service", "web"] }

/-! ## Lemmas on `Complete` -/

/-- A description of `Complete` on every input: it returns (no panic), logs one
line, touches only `Kind`, `Name`, `Namespace` and `Client`, takes `Kind` and `Name`
from the first two arguments when there are at least two, and on success has stored
the namespace of the flag, or of the kubeconfig when the flag is empty. -/
theorem Complete_describe (w : World) (o : Options) (args : List String) :
    ∃ s, Complete w o args = .ok s ∧
      s.trace = [Effect.klog 1 "add information to Options struct"] ∧
      s.o.PrintVersion = o.PrintVersion ∧ s.o.DotGraph = o.DotGraph ∧
      s.o.IOStreams = o.IOStreams ∧ s.o.ConfigFlags = o.ConfigFlags ∧
      (2 ≤ args.length → args.get? 0 = some s.o.Kind ∧ args.get? 1 = some s.o.Name) ∧
      (args.length < 2 → s.o.Kind = o.Kind ∧ s.o.Name = o.Name) ∧
      (s.err = none →
        (w.flagNamespace = .ok s.o.Namespace ∧ s.o.Namespace ≠ "") ∨
        (w.flagNamespace = .ok "" ∧ w.configNamespace = .ok s.o.Namespace)) := by
  obtain ⟨fl, cf, rc, nf, ver, bld, verb⟩ := w
  rcases args with _ | ⟨a, _ | ⟨b, rest⟩⟩ <;>
    rcases fl with e | ns <;> simp [Complete, index, bind, Except.bind, pure, Except.pure]
  all_goals
    by_cases hns : ns = "" <;> rcases cf with e | c <;> rcases rc with e2 | r <;>
      (try cases hnf : nf r) <;> simp [hns, *]

/-! ## Lemmas on `Validate`, `Run` and `RunE` -/

theorem builders_append (t u : List Effect) : builders (t ++ u) = builders t ++ builders u := by
  simp [builders]

theorem builds_append (t u : List Effect) : builds (t ++ u) = builds t ++ builds u := by
  simp [builds]

theorem printed_append (t u : List Effect) : printed (t ++ u) = printed t ++ printed u := by
  simp [printed]

/-- The error of `Validate` in closed form. -/
theorem Validate_err (o : Options) (args : List String) :
    (Validate o args).err =
      if args.length ≠ 2 ∧ o.PrintVersion = false then
        some (GoError.mk "requires valid 'kind' and 'name' arguments")
      else none := by
  unfold Validate Errorf
  by_cases h : args.length = 2 <;> cases hv : o.PrintVersion <;> simp [h]

theorem Validate_o (o : Options) (args : List String) : (Validate o args).o = o := by
  unfold Validate
  split <;> rfl

theorem Validate_trace (o : Options) (args : List String) :
    (Validate o args).trace = [Effect.klog 1 "validate arguments"] := by
  unfold Validate
  split <;> rfl

theorem Run_o (w : World) (o : Options) : (Run w o).o = o := by
  unfold Run
  cases o.PrintVersion <;> simp
  all_goals split <;> rfl

/-- The trace of `Run`: the log line, then the version block or the two builder
calls. -/
theorem Run_trace (w : World) (o : Options) :
    (Run w o).trace =
      Effect.klog 1 "execute the build function of the Builder" ::
        (if o.PrintVersion then [Effect.printf (versionBlock w.version)]
         else [Effect.newBuilder (NewBuilder o.Client o.Out o.DotGraph o.Namespace o.Kind o.Name),
               Effect.build (NewBuilder o.Client o.Out o.DotGraph o.Namespace o.Kind o.Name)]) := by
  unfold Run
  cases o.PrintVersion <;> simp
  all_goals split <;> rfl

/-- The error of `Run`: nil when printing the version, the error of `Build`
otherwise. -/
theorem Run_err (w : World) (o : Options) :
    (Run w o).err =
      if o.PrintVersion then none
      else (w.build (NewBuilder o.Client o.Out o.DotGraph o.Namespace o.Kind o.Name)).err := by
  unfold Run
  cases o.PrintVersion <;> simp
  split <;> simp [*]

/-- The closure `RunE` after a `Complete` that returned `s`. -/
theorem RunE_after_Complete (w : World) (o : Options) (args : List String) (s : Step)
    (h : Complete w o args = .ok s) :
    RunE w o args = .ok
      (match s.err with
       | some err => ⟨s.o, some err, s.trace⟩
       | none =>
         match (Validate s.o args).err with
         | some err => ⟨s.o, some err, s.trace ++ (Validate s.o args).trace⟩
         | none => ⟨s.o, (Run w s.o).err,
                    s.trace ++ (Validate s.o args).trace ++ (Run w s.o).trace⟩) := by
  simp only [RunE, h, bind, Except.bind, pure, Except.pure]
  cases hs : s.err with
  | some e => rfl
  | none =>
    simp only []
    cases hv : (Validate s.o args).err with
    | some e => simp [Validate_o]
    | none =>
      simp only [Validate_o]
      cases hr : (Run w s.o).err <;> simp [Run_o]

/-- The builders `Run` constructs: none when printing the version, one otherwise. -/
theorem builders_Run (w : World) (o : Options) :
    builders (Run w o).trace =
      if o.PrintVersion then []
      else [NewBuilder o.Client o.Out o.DotGraph o.Namespace o.Kind o.Name] := by
  rw [Run_trace]
  cases o.PrintVersion <;> simp [builders]

/-- The builders `Run` runs: none when printing the version, one otherwise. -/
theorem builds_Run (w : World) (o : Options) :
    builds (Run w o).trace =
      if o.PrintVersion then []
      else [NewBuilder o.Client o.Out o.DotGraph o.Namespace o.Kind o.Name] := by
  rw [Run_trace]
  cases o.PrintVersion <;> simp [builds]

/-- What `Run` prints: the version block when asked for it, nothing otherwise. -/
theorem printed_Run (w : World) (o : Options) :
    printed (Run w o).trace = if o.PrintVersion then [versionBlock w.version] else [] := by
  rw [Run_trace]
  cases o.PrintVersion <;> simp [printed]

/-- The closure `RunE` returns on every input; the builders of its trace are those
of `Run` on the completed options when `Complete` and `Validate` both succeed, and
none otherwise; the same holds of the builders run and of the text printed; and
its error is the error of the first phase that fails. -/
theorem RunE_describe (w : World) (o : Options) (args : List String) :
    ∃ s r, Complete w o args = .ok s ∧ RunE w o args = .ok r ∧ r.o = s.o ∧
      ((s.err = none ∧ (Validate s.o args).err = none ∧
          r.err = (Run w s.o).err ∧
          builders r.trace = builders (Run w s.o).trace ∧
          builds r.trace = builds (Run w s.o).trace ∧
          printed r.trace = printed (Run w s.o).trace) ∨
       ((s.err ≠ none ∨ (Validate s.o args).err ≠ none) ∧ r.err ≠ none ∧
          builders r.trace = [] ∧ builds r.trace = [] ∧ printed r.trace = [])) := by
  obtain ⟨s, hs, ht, -⟩ := Complete_describe w o args
  refine ⟨s, _, hs, RunE_after_Complete w o args s hs, ?_⟩
  cases he : s.err with
  | some e => simp [ht, builders, builds, printed]
  | none =>
    cases hv : (Validate s.o args).err with
    | some e => simp [ht, Validate_trace, builders, builds, printed]
    | none =>
      simp [ht, Validate_trace, builders_append, builds_append, printed_append]
      simp [builders, builds, printed]

/-! ## Concrete runs -/

/-- The run `kubegraph service web`: three log lines, one builder in tree mode on
the standard output, one `Build`, no error. -/
theorem run_service_web :
    Execute sampleWorld (NewCmd stdStreams) (.line webLine) = .ok
      ⟨webOptions, none,
       [Effect.klog 1 "add information to Options struct",
        Effect.klog 1 "validate arguments",
        Effect.klog 1 "execute the build function of the Builder",
        Effect.newBuilder ⟨some ⟨7⟩, Writer.osStdout, false, "default", "service", "web"⟩,
        Effect.build ⟨some ⟨7⟩, Writer.osStdout, false, "default", "service", "web"⟩]⟩ :=
  rfl

/-- The run `kubegraph ingress bar --dot` constructs its builder in DOT mode. -/
theorem run_ingress_dot :
    (Execute sampleWorld (NewCmd stdStreams)
        (.line ⟨some true, none, ["ingress", "bar"]⟩)).map (fun s => (builders s.trace).map Builder.mode)
      = .ok [Mode.DOT] :=
  rfl

/-- The run `kubegraph service` stops in `Validate`. -/
theorem run_one_argument :
    Execute sampleWorld (NewCmd stdStreams) (.line ⟨none, none, ["service"]⟩) = .ok
      ⟨{ NewOptions stdStreams with Client := some ⟨7⟩, Namespace := "default" },
       some ⟨"requires valid 'kind' and 'name' arguments"⟩,
       [Effect.klog 1 "add information to Options struct",
        Effect.klog 1 "validate arguments"]⟩ :=
  rfl

/-- The run `kubegraph a b c --version` prints the version block and builds
nothing. -/
theorem run_version_three_arguments :
    Execute sampleWorld (NewCmd stdStreams) (.line ⟨none, some true, ["a", "b", "c"]⟩) = .ok
      ⟨{ NewOptions stdStreams with
           Client := some ⟨7⟩, Namespace := "default", Kind := "a", Name := "b",
           PrintVersion := true },
       none,
       [Effect.klog 1 "add information to Options struct",
        Effect.klog 1 "validate arguments",
        Effect.klog 1 "execute the build function of the Builder",
        Effect.printf (versionBlock sampleVersion)]⟩ :=
  rfl

/-- A namespace given by the flag is the one stored, and the kubeconfig is not
consulted. -/
theorem run_flag_namespace :
    (Complete { sampleWorld with flagNamespace := .ok "kube-system",
                                 configNamespace := .error ⟨"no kubeconfig"⟩ }
        (NewOptions stdStreams) ["pod", "dns"]).map (fun s => (s.o.Namespace, s.err))
      = .ok ("kube-system", none) :=
  rfl

/-- The version block of the sample strings, character for character. -/
theorem versionBlock_sample :
    versionBlock sampleVersion =
      "Version:\tv0.1.0\nBranch:\t\tmain\nCommit:\t\t0a1b2c3\nGo Version:\tgo1.15\n" ++
        "OS/Arch:\tlinux/amd64\nDate:\t\t2020-11-01\n" := by
  decide

/-- Exit statuses of `main` on five command lines. -/
theorem main_exit_examples :
    main sampleWorld (.line webLine) = 0 ∧
    main sampleWorld (.line ⟨none, none, ["service"]⟩) = 1 ∧
    main failingBuildWorld (.line webLine) = 1 ∧
    main sampleWorld .help = 0 ∧
    main sampleWorld (.rejected ⟨"unknown flag: --tree"⟩) = 1 :=
  ⟨rfl, rfl, rfl, rfl, rfl⟩

/-! ## The claims -/

/-- C1: for every argument list and every `Options` value, `Validate` returns an
error exactly when the number of arguments is not two and `PrintVersion` is false;
the error then reads "requires valid 'kind' and 'name' arguments"; with exactly two
arguments, or with `PrintVersion` true and any number of arguments, it returns nil;
and every field of `Options` is as before. -/
theorem Validate_contract (o : Options) (args : List String) :
    ((Validate o args).err ≠ none ↔ (args.length ≠ 2 ∧ o.PrintVersion = false)) ∧
    ((args.length ≠ 2 ∧ o.PrintVersion = false) →
      (Validate o args).err = some (GoError.mk "requires valid 'kind' and 'name' arguments")) ∧
    ((args.length = 2 ∨ o.PrintVersion = true) → (Validate o args).err = none) ∧
    (Validate o args).o = o := by
  refine ⟨?_, ?_, ?_, Validate_o o args⟩
  · rw [Validate_err]
    by_cases h : args.length ≠ 2 ∧ o.PrintVersion = false <;> simp [h]
  · intro h
    rw [Validate_err, if_pos h]
  · intro h
    rw [Validate_err, if_neg]
    rintro ⟨h2, hv⟩
    rcases h with h | h
    · exact h2 h
    · rw [hv] at h
      cases h

/-- C2: `Complete` returns on every argument list (no index is read out of range).
With at least two arguments it leaves `Kind = args[0]` and `Name = args[1]`, and
when it succeeds the namespace it stored is the one of the flag, or the one of the
kubeconfig when the flag is empty; every builder `Run` then constructs carries
exactly that `Kind`, `Name` and `Namespace`, and `Run` constructs exactly that one
builder unless the version is to be printed. With fewer than two arguments `Kind`
and `Name` are unchanged. -/
theorem Complete_identity (w : World) (o : Options) (args : List String) :
    ∃ s, Complete w o args = .ok s ∧
      (2 ≤ args.length →
        args.get? 0 = some s.o.Kind ∧ args.get? 1 = some s.o.Name ∧
        (s.err = none →
          ((w.flagNamespace = .ok s.o.Namespace ∧ s.o.Namespace ≠ "") ∨
           (w.flagNamespace = .ok "" ∧ w.configNamespace = .ok s.o.Namespace)) ∧
          (∀ b ∈ builders (Run w s.o).trace,
            args.get? 0 = some b.Kind ∧ args.get? 1 = some b.Name ∧
            b.Namespace = s.o.Namespace) ∧
          (s.o.PrintVersion = false →
            builders (Run w s.o).trace =
              [NewBuilder s.o.Client s.o.Out s.o.DotGraph s.o.Namespace s.o.Kind s.o.Name]))) ∧
      (args.length < 2 → s.o.Kind = o.Kind ∧ s.o.Name = o.Name) := by
  obtain ⟨s, hs, -, -, -, -, -, h2, hlt, hns⟩ := Complete_describe w o args
  refine ⟨s, hs, ?_, hlt⟩
  intro hlen
  obtain ⟨hk, hn⟩ := h2 hlen
  refine ⟨hk, hn, fun herr => ⟨hns herr, ?_, ?_⟩⟩
  · intro b hb
    rw [Run_trace] at hb
    cases hv : s.o.PrintVersion <;> simp [builders, hv] at hb
    subst hb
    exact ⟨hk, hn, rfl⟩
  · intro hv
    rw [Run_trace]
    simp [builders, hv]

/-- C4: when `PrintVersion` is false, `Run` returns exactly what `Build` returned,
the same error value or nil, so an error if and only if `Build` gave one; when
`Complete` and `Validate` succeed, `RunE` returns the result of `Run` unchanged;
and `main` exits with status 1 exactly when `Execute` returns a non-nil error. -/
theorem Run_surfaces_Build_error (w : World) (o : Options) (args : List String)
    (parsed : Parsed) (hv : o.PrintVersion = false) :
    (Run w o).err =
        (w.build (NewBuilder o.Client o.Out o.DotGraph o.Namespace o.Kind o.Name)).err ∧
    ((Run w o).err ≠ none ↔
        (w.build (NewBuilder o.Client o.Out o.DotGraph o.Namespace o.Kind o.Name)).err ≠ none) ∧
    (∃ s r, Complete w o args = .ok s ∧ RunE w o args = .ok r ∧
      (s.err = none → (Validate s.o args).err = none →
        r.err = (Run w s.o).err ∧
        r.err = (w.build (NewBuilder s.o.Client s.o.Out s.o.DotGraph s.o.Namespace
                            s.o.Kind s.o.Name)).err)) ∧
    (main w parsed = 1 ↔
      ∃ s e, Execute w (NewCmd stdStreams) parsed = .ok s ∧ s.err = some e) := by
  have hrun : (Run w o).err =
      (w.build (NewBuilder o.Client o.Out o.DotGraph o.Namespace o.Kind o.Name)).err := by
    rw [Run_err, hv]
    simp
  refine ⟨hrun, by rw [hrun], ?_, ?_⟩
  · obtain ⟨s, r, hs, hr, -, h⟩ := RunE_describe w o args
    obtain ⟨s', hs', -, hpv, -⟩ := Complete_describe w o args
    obtain rfl : s = s' := by
      rw [hs] at hs'
      exact Except.ok.inj hs'
    refine ⟨s, r, hs, hr, fun he hval => ?_⟩
    rcases h with ⟨-, -, herr, -⟩ | ⟨hne, -⟩
    · refine ⟨herr, ?_⟩
      rw [herr, Run_err, hpv, hv]
      simp
    · rcases hne with hne | hne
      · exact absurd he hne
      · exact absurd hval hne
  · unfold main
    change (match Execute w (NewCmd stdStreams) parsed with
      | .error _ => 2
      | .ok s => match s.err with
        | some _ => 1
        | none => 0) = 1 ↔ _
    cases hx : Execute w (NewCmd stdStreams) parsed with
    | error p => simp
    | ok s =>
      cases he : s.err <;> simp [he]

/-- Witness of C4: with every `Build` failing, `Run` on the completed options of
`kubegraph service web` returns the error of `Build`, and the process exits with
status 1. -/
theorem Run_surfaces_Build_error_witness :
    webOptions.PrintVersion = false ∧
    (Run failingBuildWorld webOptions).err = some ⟨"kind service not found"⟩ ∧
    main failingBuildWorld (.line webLine) = 1 :=
  ⟨rfl,
   (Run_surfaces_Build_error failingBuildWorld webOptions webLine.args
      (.line webLine) rfl).1.trans rfl,
   (Run_surfaces_Build_error failingBuildWorld webOptions webLine.args
      (.line webLine) rfl).2.2.2.mpr ⟨_, _, rfl, rfl⟩⟩

/-- C5, as stated, fails: `kubegraph service web` reaches `Run` without `--version`
and succeeds, and the one builder constructed is given the client, the `Out`
stream, the DOT flag, the namespace, the kind and the name: no integer, hence no
node cap, is among the values passed. -/
theorem builder_node_cap_counterexample :
    ∃ s, Execute sampleWorld (NewCmd stdStreams) (.line webLine) = .ok s ∧
      s.err = none ∧ s.o.PrintVersion = false ∧
      builders s.trace = [⟨some ⟨7⟩, Writer.osStdout, false, "default", "service", "web"⟩] ∧
      ¬ ∃ b ∈ builders s.trace, ∃ v ∈ b.args, v.isInt = true := by
  refine ⟨_, rfl, rfl, rfl, rfl, ?_⟩
  decide

/-- C5, amended: whenever `Run` is reached without `--version` it constructs one
builder, and the data passed to it are exactly six values, the client, the `Out`
stream, the DOT flag and the starting identity `Namespace`, `Kind`, `Name`; none of
them is an integer, so no node cap is passed. -/
theorem Run_builder_arguments (w : World) (o : Options) (hv : o.PrintVersion = false) :
    ∃ b, builders (Run w o).trace = [b] ∧ builds (Run w o).trace = [b] ∧
      b.args = [GoValue.client o.Client, GoValue.writer o.Out, GoValue.bool o.DotGraph,
                GoValue.string o.Namespace, GoValue.string o.Kind, GoValue.string o.Name] ∧
      ∀ v ∈ b.args, v.isInt = false := by
  refine ⟨NewBuilder o.Client o.Out o.DotGraph o.Namespace o.Kind o.Name, ?_, ?_, rfl, ?_⟩
  · rw [builders_Run, hv]
    simp
  · rw [builds_Run, hv]
    simp
  · simp [Builder.args, GoValue.isInt]

/-- Witness of the amended C5 on the options of `kubegraph service web` after
completion. -/
theorem Run_builder_arguments_witness :
    webOptions.PrintVersion = false ∧
    ∃ b, builders (Run sampleWorld webOptions).trace = [b] ∧
      builds (Run sampleWorld webOptions).trace = [b] ∧
      b.args = [GoValue.client (some ⟨7⟩), GoValue.writer Writer.osStdout, GoValue.bool false,
                GoValue.string "default", GoValue.string "service", GoValue.string "web"] ∧
      ∀ v ∈ b.args, v.isInt = false :=
  ⟨rfl, Run_builder_arguments sampleWorld webOptions rfl⟩

/-- C6, as stated, fails: with the two empty arguments of `kubegraph "" ""` and no
`--version`, `Complete` and `Validate` both succeed, and the builder is handed an
empty `Kind` and an empty `Name`. -/
theorem Validate_empty_identity_counterexample :
    ∃ s, Complete sampleWorld (NewOptions stdStreams) ["", ""] = .ok s ∧ s.err = none ∧
      (Validate s.o ["", ""]).err = none ∧ s.o.PrintVersion = false ∧
      ∃ b, builders (Run sampleWorld s.o).trace = [b] ∧ b.Kind = "" ∧ b.Name = "" :=
  ⟨_, rfl, rfl, rfl, rfl, _, rfl, rfl, rfl⟩

/-- C6, amended: if `Complete` and then `Validate` both succeed and version printing
is not requested, the argument list has exactly two elements, and the `Kind` and
`Name` handed to the one builder are those two arguments as given, empty or
not. -/
theorem Validate_identity_present (w : World) (o : Options) (args : List String) (s : Step)
    (hc : Complete w o args = .ok s) (he : s.err = none)
    (hval : (Validate s.o args).err = none) (hv : s.o.PrintVersion = false) :
    ∃ kind name b, args = [kind, name] ∧ builders (Run w s.o).trace = [b] ∧
      b.Kind = kind ∧ b.Name = name := by
  obtain ⟨s', hs', -, -, -, -, -, h2, -, -⟩ := Complete_describe w o args
  obtain rfl : s' = s := by
    rw [hc] at hs'
    exact (Except.ok.inj hs').symm
  have hlen : args.length = 2 := by
    by_contra hne
    rw [Validate_err, if_pos ⟨hne, hv⟩] at hval
    cases hval
  obtain ⟨hk, hn⟩ := h2 (by omega)
  rcases args with _ | ⟨a, _ | ⟨b, _ | ⟨c, rest⟩⟩⟩ <;> simp at hlen
  simp at hk hn
  refine ⟨a, b, NewBuilder s'.o.Client s'.o.Out s'.o.DotGraph s'.o.Namespace s'.o.Kind s'.o.Name,
    rfl, ?_, hk.symm, hn.symm⟩
  rw [builders_Run, hv]
  simp

/-- Witness of the amended C6 on `kubegraph service web`. -/
theorem Validate_identity_present_witness :
    ∃ kind name b, ["service", "web"] = [kind, name] ∧
      builders (Run sampleWorld webOptions).trace = [b] ∧ b.Kind = kind ∧ b.Name = name :=
  Validate_identity_present sampleWorld (NewOptions stdStreams) ["service", "web"]
    ⟨webOptions, none, [Effect.klog 1 "add information to Options struct"]⟩ rfl rfl rfl rfl

/-- C7, as stated, fails: on `kubegraph --version`, run as `main` runs it, the
builder is never constructed and `Build` is never called, yet the output sink of
the command is the process standard output, and the version block is written
there. -/
theorem version_sink_counterexample :
    ∃ s, Execute sampleWorld (NewCmd stdStreams) (.line ⟨none, some true, []⟩) = .ok s ∧
      s.err = none ∧ s.o.PrintVersion = true ∧
      builders s.trace = [] ∧ builds s.trace = [] ∧
      s.o.Out = Writer.osStdout ∧
      writtenTo sampleWorld s.o.Out s.trace =
        [Output.text ("Version:\tv0.1.0\nBranch:\t\tmain\nCommit:\t\t0a1b2c3\n" ++
          "Go Version:\tgo1.15\nOS/Arch:\tlinux/amd64\nDate:\t\t2020-11-01\n")] ∧
      writtenTo sampleWorld s.o.Out s.trace ≠ [] := by
  refine ⟨_, rfl, rfl, rfl, rfl, rfl, rfl, by decide, ?_⟩
  decide

/-- C7, amended: with `--version` set, on every argument list, of any length,
`Complete` returns, and when it succeeds `Validate` passes, `Run` returns nil and
so does `RunE`; the run consists of three log lines and one `fmt.Printf` of the
version block; no builder is constructed and no `Build` is called. The version
block, and nothing else, is written to the process standard output, so to the
output sink when the sink is the standard output, as `main` sets it; the log lines
go to the standard error when the verbosity is at least 1; a sink that is neither
receives nothing. -/
theorem version_run_output (w : World) (o : Options) (args : List String)
    (hv : o.PrintVersion = true) :
    ∃ s r, Complete w o args = .ok s ∧ RunE w o args = .ok r ∧
      builders r.trace = [] ∧ builds r.trace = [] ∧
      (s.err = none →
        (Validate s.o args).err = none ∧
        (Run w s.o).err = none ∧
        r.err = none ∧
        r.trace =
          [Effect.klog 1 "add information to Options struct",
           Effect.klog 1 "validate arguments",
           Effect.klog 1 "execute the build function of the Builder",
           Effect.printf ("Version:\t" ++ w.version.Version ++ "\nBranch:\t\t" ++ w.version.Branch
             ++ "\nCommit:\t\t" ++ w.version.Commit ++ "\nGo Version:\t" ++ w.version.GoVersion
             ++ "\nOS/Arch:\t" ++ w.version.OSArch ++ "\nDate:\t\t" ++ w.version.Date ++ "\n")] ∧
        writtenTo w Writer.osStdout r.trace =
          [Output.text ("Version:\t" ++ w.version.Version ++ "\nBranch:\t\t" ++ w.version.Branch
             ++ "\nCommit:\t\t" ++ w.version.Commit ++ "\nGo Version:\t" ++ w.version.GoVersion
             ++ "\nOS/Arch:\t" ++ w.version.OSArch ++ "\nDate:\t\t" ++ w.version.Date ++ "\n")] ∧
        writtenTo w Writer.osStderr r.trace =
          (if 1 ≤ w.verbosity then
            [Output.logLine 1 "add information to Options struct",
             Output.logLine 1 "validate arguments",
             Output.logLine 1 "execute the build function of the Builder"]
           else []) ∧
        (∀ id, writtenTo w (Writer.other id) r.trace = []) ∧
        (o.Out = Writer.osStdout →
          writtenTo w r.o.Out r.trace = writtenTo w Writer.osStdout r.trace) ∧
        (∀ id, o.Out = Writer.other id → writtenTo w r.o.Out r.trace = [])) := by
  obtain ⟨s, r, hs, hr, hro, h⟩ := RunE_describe w o args
  obtain ⟨s', hs', ht, hpv, -, hio, -⟩ := Complete_describe w o args
  obtain rfl : s = s' := by
    rw [hs] at hs'
    exact Except.ok.inj hs'
  have hr' := RunE_after_Complete w o args s hs
  have hpv' : s.o.PrintVersion = true := hpv.trans hv
  have hval : (Validate s.o args).err = none := by
    rw [Validate_err, if_neg]
    rintro ⟨-, hf⟩
    rw [hpv'] at hf
    cases hf
  have hrun : (Run w s.o).err = none := by
    rw [Run_err, hpv']
    rfl
  have hout : r.o.Out = o.Out := by
    unfold Options.Out
    rw [hro, hio]
  have hb : builders r.trace = [] := by
    rcases h with ⟨-, -, -, hb, -, -⟩ | ⟨-, -, hb, -, -⟩
    · rw [hb, builders_Run, hpv']
      rfl
    · exact hb
  have hbd : builds r.trace = [] := by
    rcases h with ⟨-, -, -, -, hbd, -⟩ | ⟨-, -, -, hbd, -⟩
    · rw [hbd, builds_Run, hpv']
      rfl
    · exact hbd
  refine ⟨s, r, hs, hr, hb, hbd, fun he => ?_⟩
  have htr : r.trace =
      [Effect.klog 1 "add information to Options struct",
       Effect.klog 1 "validate arguments",
       Effect.klog 1 "execute the build function of the Builder",
       Effect.printf (versionBlock w.version)] := by
    rw [hr, he] at hr'
    simp only [hval] at hr'
    rw [Except.ok.inj hr', ht, Validate_trace, Run_trace, hpv']
    rfl
  have herr : r.err = none := by
    rcases h with ⟨-, -, herr, -⟩ | ⟨-, hne, -⟩
    · exact herr.trans hrun
    · rw [hr, he] at hr'
      simp only [hval] at hr'
      rw [Except.ok.inj hr'] at hne
      exact absurd hrun hne
  have hso : writtenTo w Writer.osStdout r.trace = [Output.text (versionBlock w.version)] := by
    rw [htr]
    by_cases hvb : 1 ≤ w.verbosity <;> simp [writtenTo, Effect.writes, hvb]
  have hoth : ∀ id, writtenTo w (Writer.other id) r.trace = [] := by
    intro id
    rw [htr]
    by_cases hvb : 1 ≤ w.verbosity <;> simp [writtenTo, Effect.writes, hvb]
  refine ⟨hval, hrun, herr, htr, hso, ?_, hoth, ?_, ?_⟩
  · rw [htr]
    by_cases hvb : 1 ≤ w.verbosity <;> simp [writtenTo, Effect.writes, hvb]
  · intro ho
    rw [hout, ho]
  · intro id ho
    rw [hout, ho]
    exact hoth id

/-- Witness of the amended C7: `kubegraph a b c --version`, three arguments, on the
options `main` starts from: `Complete` succeeds, and the version block is what the
output sink, the standard output, receives. -/
theorem version_run_output_witness :
    versionOptions.PrintVersion = true ∧
    (∃ s, Complete sampleWorld versionOptions ["a", "b", "c"] = .ok s ∧ s.err = none) ∧
    ∃ s r, Complete sampleWorld versionOptions ["a", "b", "c"] = .ok s ∧
      RunE sampleWorld versionOptions ["a", "b", "c"] = .ok r ∧
      builders r.trace = [] ∧ builds r.trace = [] ∧
      (s.err = none →
        (Validate s.o ["a", "b", "c"]).err = none ∧
        (Run sampleWorld s.o).err = none ∧
        r.err = none ∧
        r.trace =
          [Effect.klog 1 "add information to Options struct",
           Effect.klog 1 "validate arguments",
           Effect.klog 1 "execute the build function of the Builder",
           Effect.printf ("Version:\t" ++ "v0.1.0" ++ "\nBranch:\t\t" ++ "main"
             ++ "\nCommit:\t\t" ++ "0a1b2c3" ++ "\nGo Version:\t" ++ "go1.15"
             ++ "\nOS/Arch:\t" ++ "linux/amd64" ++ "\nDate:\t\t" ++ "2020-11-01" ++ "\n")] ∧
        writtenTo sampleWorld Writer.osStdout r.trace =
          [Output.text ("Version:\t" ++ "v0.1.0" ++ "\nBranch:\t\t" ++ "main"
             ++ "\nCommit:\t\t" ++ "0a1b2c3" ++ "\nGo Version:\t" ++ "go1.15"
             ++ "\nOS/Arch:\t" ++ "linux/amd64" ++ "\nDate:\t\t" ++ "2020-11-01" ++ "\n")] ∧
        writtenTo sampleWorld Writer.osStderr r.trace =
          (if 1 ≤ sampleWorld.verbosity then
            [Output.logLine 1 "add information to Options struct",
             Output.logLine 1 "validate arguments",
             Output.logLine 1 "execute the build function of the Builder"]
           else []) ∧
        (∀ id, writtenTo sampleWorld (Writer.other id) r.trace = []) ∧
        (versionOptions.Out = Writer.osStdout →
          writtenTo sampleWorld r.o.Out r.trace = writtenTo sampleWorld Writer.osStdout r.trace) ∧
        (∀ id, versionOptions.Out = Writer.other id →
          writtenTo sampleWorld r.o.Out r.trace = [])) :=
  ⟨rfl, ⟨_, rfl, rfl⟩, version_run_output sampleWorld versionOptions ["a", "b", "c"] rfl⟩

end KubeGraph
